import Mathlib

/-!
Shallow embedding of the user/post services of a small NestJS + Prisma
backend (`users.service.ts`, its controller and unit tests, and the posts
service unit tests), together with proofs checking the natural-language
specification against this embedding.

Modelling conventions:
* JavaScript thrown values (Prisma errors, plain `Error`s, NestJS
  `HttpException` subclasses) are one inductive `JsError`; the duck-typed
  `error.code === 'P2002'` checks of the source become `JsError.code`.
* The bcrypt collaborator is modelled by separating, inside the stored
  credential string, well-formed bcrypt digests (which carry their cost
  factor, their random salt and the hashed secret) from any other string
  content (`Stored.plain`).  `bcrypt.hash(s, 10)` becomes
  `Stored.digest 10 salt s` where `salt` is the randomness of the call, and
  `bcrypt.compare` recomputes using the salt embedded in the digest.
* The JWT collaborator is modelled as ideal signing: a signed token is a
  sealed box around its payload and verification opens the box.  Services
  take the signing function as an explicit argument, so "the token-signing
  operation is never invoked" is expressed as independence of the result
  from that argument.
* The Prisma collaborator is explicit state passing over a list of rows;
  each service call additionally takes optional injected faults, mirroring
  how the repository's unit tests mock rejected Prisma promises.
-/

namespace NestDemo

/-- A JavaScript value that can be thrown: Prisma errors carrying a `code`
string, plain `Error` objects, and the NestJS exception classes used by the
services.  `httpException body status` is `new HttpException(body, status)`,
whose body may itself be any caught error value. -/
inductive JsError where
  | prismaErr (code : String) (message : String)
  | jsErr (message : String)
  | conflictException (message : String)
  | notFoundException (message : String)
  | unauthorizedException (message : String)
  | httpException (body : JsError) (status : Nat)
deriving Repr, DecidableEq

/-- The duck-typed `error.code` read performed by the catch blocks: only
Prisma errors expose a `code` property. -/
def JsError.code : JsError → Option String
  | .prismaErr c _ => some c
  | _ => none

/-- Content of the stored credential column: either a well-formed bcrypt
digest (cost factor, embedded random salt, hashed secret) or any other raw
string content. -/
inductive Stored where
  | digest (cost : Nat) (salt : Nat) (secret : String)
  | plain (s : String)
deriving Repr, DecidableEq

/-- `bcrypt.hash(secret, cost)` with the call's randomness made explicit. -/
def bcryptHash (secret : String) (cost : Nat) (salt : Nat) : Stored :=
  Stored.digest cost salt secret

/-- `bcrypt.compare(plain, digest)`: recompute with the salt embedded in the
digest and compare; content that is not a well-formed digest verifies
nothing. -/
def bcryptCompare (plain : String) (stored : Stored) : Bool :=
  match stored with
  | .digest _ _ s => plain == s
  | .plain _ => false

/-- A row of the Prisma `User` table. -/
structure DbUser where
  id : Nat
  email : String
  name : String
  password : Stored
deriving Repr, DecidableEq

/-- The user store held by the persistence collaborator, with its
auto-increment counter. -/
structure Db where
  users : List DbUser
  nextId : Nat
deriving Repr, DecidableEq

/-- The account view returned by the service: the record after
`delete user.password` (`password = none` models the deleted key). -/
structure UserView where
  id : Nat
  email : String
  name : String
  password : Option Stored
deriving Repr, DecidableEq

/-- `CreateUserDto` of the source. -/
structure CreateUserDto where
  email : String
  name : String
  password : String
deriving Repr, DecidableEq

/-- `LoginUserDto` of the source. -/
structure LoginUserDto where
  email : String
  password : String
deriving Repr, DecidableEq

/-- `UpdateUsertDto` of the source (its fields are all optional). -/
structure UpdateUsertDto where
  email : Option String := none
  name : Option String := none
  password : Option String := none
deriving Repr, DecidableEq

/-- The JWT payload built by `loginUser`. -/
structure UserPayload where
  sub : Nat
  email : String
  name : String
deriving Repr, DecidableEq

/-- The JWT collaborator modelled as ideal signing: a token is a sealed box
around its claims. -/
structure SignedToken where
  payload : UserPayload
deriving Repr, DecidableEq

/-- `jwtService.verifyAsync`: opening the sealed box recovers the claims. -/
def verifyToken (t : SignedToken) : Option UserPayload :=
  some t.payload

/-- `LoginResponse` of the source. -/
structure LoginResponse where
  access_token : SignedToken
deriving Repr, DecidableEq

/-- Partial update object passed to `prisma.user.update` (`none` = key
absent, field untouched). -/
structure UpdateData where
  email : Option String := none
  name : Option String := none
  password : Option Stored := none
deriving Repr, DecidableEq

/-- `prisma.user.create`: rejects with Prisma error `P2002` when the unique
email constraint is violated, otherwise inserts a fresh row. -/
def prismaUserCreate (db : Db) (email name : String) (password : Stored) :
    Except JsError (Db × DbUser) :=
  if db.users.any (fun u => u.email == email) then
    .error (.prismaErr "P2002" "Unique constraint failed")
  else
    let u : DbUser := ⟨db.nextId, email, name, password⟩
    .ok (⟨db.users ++ [u], db.nextId + 1⟩, u)

/-- `prisma.user.findUnique({where: {email}})`: nullable lookup. -/
def prismaUserFindUnique (db : Db) (email : String) : Option DbUser :=
  db.users.find? (fun u => u.email == email)

/-- `prisma.user.findUniqueOrThrow({where: {id}})`: rejects with Prisma
error `P2025` when no row has the id. -/
def prismaUserFindUniqueOrThrow (db : Db) (id : Nat) : Except JsError DbUser :=
  match db.users.find? (fun u => u.id == id) with
  | some u => .ok u
  | none => .error (.prismaErr "P2025" "Record not found")

/-- `prisma.user.update({where: {id}, data})`: rejects with `P2025` when the
row is missing and with `P2002` when the new email collides with another
row's email; otherwise merges the provided fields into the row. -/
def prismaUserUpdate (db : Db) (id : Nat) (data : UpdateData) :
    Except JsError (Db × DbUser) :=
  match db.users.find? (fun u => u.id == id) with
  | none => .error (.prismaErr "P2025" "Record not found")
  | some u =>
    let newEmail := data.email.getD u.email
    if db.users.any (fun v => v.id != id && v.email == newEmail) then
      .error (.prismaErr "P2002" "Unique constraint failed")
    else
      let u' : DbUser :=
        { u with
          email := newEmail
          name := data.name.getD u.name
          password := data.password.getD u.password }
      .ok (⟨db.users.map (fun v => if v.id == id then u' else v), db.nextId⟩, u')

/-- `prisma.user.delete({where: {id}})`: rejects with `P2025` when the row
is missing, otherwise removes it. -/
def prismaUserDelete (db : Db) (id : Nat) : Except JsError (Db × DbUser) :=
  match db.users.find? (fun u => u.id == id) with
  | none => .error (.prismaErr "P2025" "Record not found")
  | some u =>
    .ok (⟨db.users.filter (fun v => v.id != id), db.nextId⟩, u)

/-- `delete user.password; return user`. -/
def stripPassword (u : DbUser) : UserView :=
  ⟨u.id, u.email, u.name, none⟩

/-- `UsersService.registerUser`: hash the password with cost 10, attempt the
create, strip the password from the returned record; in the catch block a
`P2002` code becomes `ConflictException('Email already registered')` and any
other error is wrapped as `HttpException(error, 500)`.  `fault` injects a
rejection of the Prisma call (as the repository's tests do); `salt` is the
randomness of the bcrypt call.  The store is returned unchanged on
failure. -/
def registerUser (db : Db) (fault : Option JsError) (salt : Nat)
    (createUserDto : CreateUserDto) : Db × Except JsError UserView :=
  let attempt : Except JsError (Db × DbUser) :=
    match fault with
    | some e => .error e
    | none =>
        prismaUserCreate db createUserDto.email createUserDto.name
          (bcryptHash createUserDto.password 10 salt)
  match attempt with
  | .ok (db', newUser) => (db', .ok (stripPassword newUser))
  | .error e =>
      (db,
        .error
          (if e.code == some "P2002" then
            .conflictException "Email already registered"
          else
            .httpException e 500))

/-- `UsersService.loginUser`: look the user up by email, throw
`NotFoundException('User not found')` when absent, throw
`UnauthorizedException('Invalid credentials')` when bcrypt rejects the
password, otherwise sign `{sub, email, name}`.  All of this happens inside
the `try`, and the catch block wraps EVERY caught error — including the two
deliberately thrown domain exceptions — as `HttpException(error, 500)`.
`sign` is the JWT collaborator's signing operation. -/
def loginUser (db : Db) (fault : Option JsError) (loginUserDto : LoginUserDto)
    (sign : UserPayload → SignedToken) : Except JsError LoginResponse :=
  let tryBlock : Except JsError LoginResponse :=
    match fault with
    | some e => .error e
    | none =>
      match prismaUserFindUnique db loginUserDto.email with
      | none => .error (.notFoundException "User not found")
      | some user =>
        if !(bcryptCompare loginUserDto.password user.password) then
          .error (.unauthorizedException "Invalid credentials")
        else
          .ok ⟨sign ⟨user.id, user.email, user.name⟩⟩
  match tryBlock with
  | .ok r => .ok r
  | .error e => .error (.httpException e 500)

/-- The `data` object `{...updateUserDto, ...(updateUserDto.password &&
{password: await hash(updateUserDto.password, 10)})}` built by
`updateUser`: the spread forwards every provided field raw, and the
truthiness-guarded spread overrides `password` with its hash only when the
provided string is non-empty (the sole falsy string). -/
def buildUpdateData (updateUserDto : UpdateUsertDto) (salt : Nat) : UpdateData :=
  { email := updateUserDto.email
    name := updateUserDto.name
    password :=
      match updateUserDto.password with
      | none => none
      | some p =>
          if p == "" then some (Stored.plain p)
          else some (bcryptHash p 10 salt) }

/-- The shared catch block of `updateUser` (and, per its tests, of the
modelled `deleteUser`): `P2025` becomes `NotFoundException('User with id
{id} not found')`, `P2002` becomes `ConflictException('Email already
registered')`, anything else `HttpException(error, 500)`. -/
def mapUserMutationError (id : Nat) (e : JsError) : JsError :=
  if e.code == some "P2025" then
    .notFoundException s!"User with id {id} not found"
  else if e.code == some "P2002" then
    .conflictException "Email already registered"
  else
    .httpException e 500

/-- `UsersService.updateUser`: `findUniqueOrThrow` on the id, then
`prisma.user.update` with `buildUpdateData`, then strip the password from
the returned record; both Prisma calls share one catch block
(`mapUserMutationError`).  `findFault`/`updFault` inject rejections of the
respective Prisma calls; the store is returned unchanged on failure. -/
def updateUser (db : Db) (findFault updFault : Option JsError) (salt : Nat)
    (id : Nat) (updateUserDto : UpdateUsertDto) : Db × Except JsError UserView :=
  let findRes : Except JsError DbUser :=
    match findFault with
    | some e => .error e
    | none => prismaUserFindUniqueOrThrow db id
  match findRes with
  | .error e => (db, .error (mapUserMutationError id e))
  | .ok _ =>
    let updRes : Except JsError (Db × DbUser) :=
      match updFault with
      | some e => .error e
      | none => prismaUserUpdate db id (buildUpdateData updateUserDto salt)
    match updRes with
    | .ok (db', updatedUser) => (db', .ok (stripPassword updatedUser))
    | .error e => (db, .error (mapUserMutationError id e))

/-- Modelled from the spec: `UsersService.deleteUser` is absent from the
corpus (the service file ends at a `// async deleteUser` stub); only its
unit tests are present.  Per the spec ("Delete: confirm existence (else
`NotFound`) → remove → return confirmation message referencing the id") and
the shared error-mapping contract, it mirrors `updateUser`'s
find-then-mutate shape and returns `'User with id {id} deleted'`. -/
def deleteUser (db : Db) (findFault delFault : Option JsError) (id : Nat) :
    Db × Except JsError String :=
  let findRes : Except JsError DbUser :=
    match findFault with
    | some e => .error e
    | none => prismaUserFindUniqueOrThrow db id
  match findRes with
  | .error e => (db, .error (mapUserMutationError id e))
  | .ok _ =>
    let delRes : Except JsError (Db × DbUser) :=
      match delFault with
      | some e => .error e
      | none => prismaUserDelete db id
    match delRes with
    | .ok (db', _) => (db', .ok s!"User with id {id} deleted")
    | .error e => (db, .error (mapUserMutationError id e))

/-- A row of the Prisma `Post` table (shape taken from the posts unit
tests). -/
structure Post where
  id : Nat
  title : String
  content : String
  published : Bool
  authorId : Nat
deriving Repr, DecidableEq

/-- The post store held by the persistence collaborator. -/
structure PostDb where
  posts : List Post
  nextId : Nat
deriving Repr, DecidableEq

/-- `CreatePostDto` of the posts unit tests. -/
structure CreatePostDto where
  title : String
  content : String
  published : Bool
  authorId : Nat
deriving Repr, DecidableEq

/-- `prisma.post.create`: rejects with Prisma error `P2003` when the
foreign-key constraint on `authorId` is violated (no such user row),
otherwise inserts a fresh row. -/
def prismaPostCreate (users : List DbUser) (pdb : PostDb) (dto : CreatePostDto) :
    Except JsError (PostDb × Post) :=
  if users.any (fun u => u.id == dto.authorId) then
    let p : Post := ⟨pdb.nextId, dto.title, dto.content, dto.published, dto.authorId⟩
    .ok (⟨pdb.posts ++ [p], pdb.nextId + 1⟩, p)
  else
    .error (.prismaErr "P2003" "Foreign key constraint failed")

/-- Modelled from the spec: `PostsService.createPost` is absent from the
corpus (only its unit tests are present).  Per the spec's shared
error-mapping contract ("foreign key violation maps to `NotFound` on the
referenced entity"; "unique constraint maps to `DuplicateEmail`/`Conflict`";
"every other error is wrapped opaquely as `InternalError` with status 500")
and the messages its unit tests assert: `P2003` becomes
`NotFoundException('Author not found')`, `P2002` becomes
`ConflictException('Email already registered')`, anything else
`HttpException(error, 500)`.  `fault` injects a rejection of the Prisma
call; the store is returned unchanged on failure. -/
def createPost (users : List DbUser) (pdb : PostDb) (fault : Option JsError)
    (createPostDto : CreatePostDto) : PostDb × Except JsError Post :=
  let attempt : Except JsError (PostDb × Post) :=
    match fault with
    | some e => .error e
    | none => prismaPostCreate users pdb createPostDto
  match attempt with
  | .ok (pdb', p) => (pdb', .ok p)
  | .error e =>
      (pdb,
        .error
          (if e.code == some "P2003" then
            .notFoundException "Author not found"
          else if e.code == some "P2002" then
            .conflictException "Email already registered"
          else
            .httpException e 500))

/-- `QueryPaginationDto` of the source: `page` and `size` arrive from the
query string, possibly absent; integers model their parsed values (so that
the spec's "zero/negative" defaulting case is expressible). -/
structure QueryPaginationDto where
  page : Option Int := none
  size : Option Int := none
deriving Repr, DecidableEq

/-- Modelled from the spec: the pagination utility source is absent from the
corpus (only the posts unit tests exercise it).  "zero/negative or absent
`page`/`size` default to page 1, size 10". -/
def resolveParam (v : Option Int) (dflt : Nat) : Nat :=
  match v with
  | none => dflt
  | some x => if x ≤ 0 then dflt else x.toNat

/-- Pagination metadata, shape `PaginateOutput.meta` of the tests. -/
structure PaginateMeta where
  total : Nat
  lastPage : Nat
  currentPage : Nat
  totalPerPage : Nat
  prevPage : Option Nat
  nextPage : Option Nat
deriving Repr, DecidableEq

/-- `PaginateOutput` of the tests. -/
structure PaginateOutput (α : Type) where
  data : List α
  meta : PaginateMeta
deriving Repr, DecidableEq

/-- Modelled from the spec: `PostsService.getAllPosts` is absent from the
corpus (only its unit tests are present).  Per the spec: query the page with
offset `(page-1)*size` and limit `size` (`findMany(skip, take)`), count the
records, and return `{data, meta}` with `meta = {total, currentPage,
totalPerPage, lastPage: ceil(total/size) or 0 if total=0, prevPage:
currentPage>1 ? currentPage-1 : null, nextPage: currentPage<lastPage ?
currentPage+1 : null}`. -/
def getAllPosts (pdb : PostDb) (query : Option QueryPaginationDto) :
    PaginateOutput Post :=
  let page := resolveParam (query.bind (·.page)) 1
  let size := resolveParam (query.bind (·.size)) 10
  let total := pdb.posts.length
  let data := (pdb.posts.drop ((page - 1) * size)).take size
  let lastPage := if total = 0 then 0 else (total + size - 1) / size
  { data := data
    meta :=
      { total := total
        lastPage := lastPage
        currentPage := page
        totalPerPage := size
        prevPage := if 1 < page then some (page - 1) else none
        nextPage := if page < lastPage then some (page + 1) else none } }

/-! ## Helper lemmas -/

/-- After `prisma.user.update` replaces the row with id `id`, looking that id
up finds the replaced row. -/
theorem find_after_update (l : List DbUser) (id : Nat) (u' : DbUser)
    (hid : u'.id = id) (u : DbUser)
    (h : l.find? (fun v => v.id == id) = some u) :
    (l.map fun v => if v.id == id then u' else v).find? (fun v => v.id == id) =
      some u' := by
  induction l with
  | nil => simp at h
  | cons a t ih =>
    cases ha : (a.id == id) with
    | false =>
      have hga : (if (a.id == id) = true then u' else a) = a := if_neg (by simp [ha])
      simp only [List.find?_cons, ha] at h
      simp only [List.map_cons, hga]
      simp only [List.find?_cons, ha]
      exact ih h
    | true =>
      have hga : (if (a.id == id) = true then u' else a) = u' := if_pos ha
      have hpu : (u'.id == id) = true := by simp [hid]
      simp only [List.map_cons, hga]
      simp only [List.find?_cons, hpu]

/-- A successful `prisma.user.update` stores, on the row with the requested
id, exactly the password field of the supplied `data` (falling back to the
old stored credential when the key is absent). -/
theorem prismaUserUpdate_ok_password (db : Db) (id : Nat) (data : UpdateData)
    (u : DbUser) (hfind : db.users.find? (fun v => v.id == id) = some u)
    (db' : Db) (u' : DbUser)
    (hok : prismaUserUpdate db id data = .ok (db', u')) :
    u'.password = data.password.getD u.password ∧ u'.id = id ∧
      db'.users.find? (fun w => w.id == id) = some u' := by
  have hu_id : u.id = id := by simpa using List.find?_some hfind
  by_cases hc :
      (db.users.any fun v => v.id != id && v.email == data.email.getD u.email) = true
  · simp only [prismaUserUpdate, hfind, hc, if_true] at hok
    exact absurd hok (by simp)
  · simp only [prismaUserUpdate, hfind, hc, Bool.false_eq_true, if_false, Except.ok.injEq,
      Prod.mk.injEq] at hok
    obtain ⟨hdb, hu⟩ := hok
    subst hdb
    subst hu
    refine ⟨rfl, hu_id, ?_⟩
    exact find_after_update db.users id _ hu_id u hfind

/-- A successful `updateUser` run leaves, on the row with the requested id,
exactly the password field computed by `buildUpdateData`. -/
theorem updateUser_ok_inv (db : Db) (salt id : Nat) (udto : UpdateUsertDto)
    (u : DbUser) (hfind : db.users.find? (fun v => v.id == id) = some u)
    (db' : Db) (v : UserView)
    (h : updateUser db none none salt id udto = (db', Except.ok v)) :
    ∃ u', db'.users.find? (fun w => w.id == id) = some u' ∧
      u'.password = (buildUpdateData udto salt).password.getD u.password := by
  rcases hupd : prismaUserUpdate db id (buildUpdateData udto salt) with e | ⟨db2, u2⟩
  · simp only [updateUser, prismaUserFindUniqueOrThrow, hfind, hupd] at h
    exact absurd h (by simp)
  · simp only [updateUser, prismaUserFindUniqueOrThrow, hfind, hupd] at h
    obtain ⟨h1, h2, h3⟩ := prismaUserUpdate_ok_password db id _ u hfind db2 u2 hupd
    simp only [Prod.mk.injEq, Except.ok.injEq] at h
    obtain ⟨rfl, -⟩ := h
    exact ⟨u2, h3, h1⟩

/-! ## Claim theorems -/

/-- C1: the claim says a login against a missing account fails with
`NotFound` and a login with a wrong secret fails with `InvalidCredentials`,
neither issuing a token.  The code throws both domain exceptions inside the
`try` block, so its blanket `catch` re-wraps them as
`HttpException(error, 500)`: the caller observes a 500-status wrapper, not
the domain error.  This theorem evaluates `loginUser` at both failing inputs
(the test inputs of the repository's unit tests) and shows the 500
wrapping; the quantification over the signing function shows the
token-signing operation is never consulted on either path. -/
theorem loginUser_wraps_domain_errors_in_500 :
    (∀ sign : UserPayload → SignedToken,
      loginUser ⟨[], 1⟩ none ⟨"notfound@user.com", "password123"⟩ sign =
        .error (.httpException (.notFoundException "User not found") 500)) ∧
    (∀ sign : UserPayload → SignedToken,
      loginUser ⟨[⟨1, "test@user.com", "Test User", .digest 10 0 "password123"⟩], 2⟩
          none ⟨"test@user.com", "wrongpassword"⟩ sign =
        .error (.httpException (.unauthorizedException "Invalid credentials") 500)) := by
  exact ⟨fun _ => rfl, fun _ => rfl⟩

/-- C2: every successfully returned account view of `registerUser` and of
`updateUser` has its credential field stripped (the `delete
user.password` step), so the hashed credential appears in no returned
view. -/
theorem register_update_views_strip_password :
    (∀ (db : Db) (fault : Option JsError) (salt : Nat) (dto : CreateUserDto)
        (db' : Db) (v : UserView),
        registerUser db fault salt dto = (db', Except.ok v) → v.password = none) ∧
    (∀ (db : Db) (f₁ f₂ : Option JsError) (salt id : Nat) (dto : UpdateUsertDto)
        (db' : Db) (v : UserView),
        updateUser db f₁ f₂ salt id dto = (db', Except.ok v) → v.password = none) := by
  constructor
  · intro db fault salt dto db' v h
    rcases fault with _ | e
    · rcases hc : prismaUserCreate db dto.email dto.name (bcryptHash dto.password 10 salt)
        with e | ⟨db2, u⟩
      · simp only [registerUser, hc] at h
        exact absurd h (by simp)
      · simp only [registerUser, hc, Prod.mk.injEq, Except.ok.injEq] at h
        obtain ⟨-, hv⟩ := h
        rw [← hv]
        rfl
    · simp only [registerUser] at h
      exact absurd h (by simp)
  · intro db f₁ f₂ salt id dto db' v h
    rcases f₁ with _ | e
    · rcases hf : prismaUserFindUniqueOrThrow db id with e | u
      · simp only [updateUser, hf] at h
        exact absurd h (by simp)
      · rcases f₂ with _ | e2
        · rcases hupd : prismaUserUpdate db id (buildUpdateData dto salt) with e | ⟨db2, u2⟩
          · simp only [updateUser, hf, hupd] at h
            exact absurd h (by simp)
          · simp only [updateUser, hf, hupd, Prod.mk.injEq, Except.ok.injEq] at h
            obtain ⟨-, hv⟩ := h
            rw [← hv]
            rfl
        · simp only [updateUser, hf] at h
          exact absurd h (by simp)
    · simp only [updateUser] at h
      exact absurd h (by simp)

/-- Witness for C2 at concrete successful register and update runs. -/
theorem register_update_views_strip_password_witness :
    (UserView.mk 1 "a@x.com" "A" none).password = none ∧
    (UserView.mk 1 "a@x.com" "B" none).password = none := by
  constructor
  · exact register_update_views_strip_password.1 ⟨[], 1⟩ none 0
      ⟨"a@x.com", "A", "pw123456"⟩ ⟨[⟨1, "a@x.com", "A", .digest 10 0 "pw123456"⟩], 2⟩
      ⟨1, "a@x.com", "A", none⟩ rfl
  · exact register_update_views_strip_password.2
      ⟨[⟨1, "a@x.com", "A", .digest 10 0 "pw123456"⟩], 2⟩ none none 3 1
      ⟨none, some "B", none⟩ ⟨[⟨1, "a@x.com", "B", .digest 10 0 "pw123456"⟩], 2⟩
      ⟨1, "a@x.com", "B", none⟩ rfl

/-- C3: a login whose email finds an account and whose secret verifies
against the stored digest returns a token signed over exactly
`{sub: id, email, name}`, and that token verifies back to those claims. -/
theorem loginUser_success_token_claims (db : Db) (dto : LoginUserDto) (u : DbUser)
    (hfind : prismaUserFindUnique db dto.email = some u)
    (hpw : bcryptCompare dto.password u.password = true) :
    loginUser db none dto SignedToken.mk =
      Except.ok ⟨SignedToken.mk ⟨u.id, u.email, u.name⟩⟩ ∧
    verifyToken (SignedToken.mk ⟨u.id, u.email, u.name⟩) =
      some ⟨u.id, u.email, u.name⟩ := by
  refine ⟨?_, rfl⟩
  simp [loginUser, hfind, hpw]

/-- Witness for C3 at a concrete account and matching secret. -/
theorem loginUser_success_token_claims_witness :
    loginUser ⟨[⟨1, "a@x.com", "A", .digest 10 0 "pw123456"⟩], 2⟩ none
        ⟨"a@x.com", "pw123456"⟩ SignedToken.mk =
      Except.ok ⟨SignedToken.mk ⟨1, "a@x.com", "A"⟩⟩ ∧
    verifyToken (SignedToken.mk ⟨1, "a@x.com", "A"⟩) =
      some ⟨1, "a@x.com", "A"⟩ :=
  loginUser_success_token_claims
    ⟨[⟨1, "a@x.com", "A", .digest 10 0 "pw123456"⟩], 2⟩
    ⟨"a@x.com", "pw123456"⟩ ⟨1, "a@x.com", "A", .digest 10 0 "pw123456"⟩ rfl rfl

/-- C4: a unique-constraint signal (Prisma code `P2002`) maps to
`ConflictException` (HTTP conflict) uniformly in registration, account
update and post creation, and in each case the store is returned unchanged
(no partial write is observable). -/
theorem p2002_maps_to_conflict_no_partial_write
    (db : Db) (salt id : Nat) (cdto : CreateUserDto) (udto : UpdateUsertDto)
    (users : List DbUser) (pdb : PostDb) (pdto : CreatePostDto)
    (u : DbUser) (em : String)
    (hdup : (db.users.any fun w => w.email == cdto.email) = true)
    (hfind : db.users.find? (fun w => w.id == id) = some u)
    (hemail : udto.email = some em)
    (hcollide : (db.users.any fun w => w.id != id && w.email == em) = true) :
    registerUser db none salt cdto =
      (db, .error (.conflictException "Email already registered")) ∧
    updateUser db none none salt id udto =
      (db, .error (.conflictException "Email already registered")) ∧
    createPost users pdb (some (.prismaErr "P2002" "Unique constraint failed")) pdto =
      (pdb, .error (.conflictException "Email already registered")) := by
  refine ⟨?_, ?_, ?_⟩
  · simp [registerUser, prismaUserCreate, hdup, JsError.code]
  · simp [updateUser, prismaUserFindUniqueOrThrow, hfind, prismaUserUpdate,
      buildUpdateData, hemail, hcollide, mapUserMutationError, JsError.code]
  · simp [createPost, JsError.code]

/-- Witness for C4: duplicate-email registration, email-colliding update and
a `P2002`-rejected post creation, all at concrete stores. -/
theorem p2002_maps_to_conflict_no_partial_write_witness :
    registerUser
        ⟨[⟨1, "a@x.com", "A", .digest 10 0 "pw"⟩, ⟨2, "b@x.com", "B", .digest 10 1 "pw"⟩], 3⟩
        none 5 ⟨"a@x.com", "New", "pw2"⟩ =
      (⟨[⟨1, "a@x.com", "A", .digest 10 0 "pw"⟩, ⟨2, "b@x.com", "B", .digest 10 1 "pw"⟩], 3⟩,
        .error (.conflictException "Email already registered")) ∧
    updateUser
        ⟨[⟨1, "a@x.com", "A", .digest 10 0 "pw"⟩, ⟨2, "b@x.com", "B", .digest 10 1 "pw"⟩], 3⟩
        none none 5 1 ⟨some "b@x.com", none, none⟩ =
      (⟨[⟨1, "a@x.com", "A", .digest 10 0 "pw"⟩, ⟨2, "b@x.com", "B", .digest 10 1 "pw"⟩], 3⟩,
        .error (.conflictException "Email already registered")) ∧
    createPost [] ⟨[], 1⟩ (some (.prismaErr "P2002" "Unique constraint failed"))
        ⟨"t", "c", true, 1⟩ =
      (⟨[], 1⟩, .error (.conflictException "Email already registered")) :=
  p2002_maps_to_conflict_no_partial_write
    ⟨[⟨1, "a@x.com", "A", .digest 10 0 "pw"⟩, ⟨2, "b@x.com", "B", .digest 10 1 "pw"⟩], 3⟩
    5 1 ⟨"a@x.com", "New", "pw2"⟩ ⟨some "b@x.com", none, none⟩ [] ⟨[], 1⟩
    ⟨"t", "c", true, 1⟩ ⟨1, "a@x.com", "A", .digest 10 0 "pw"⟩ "b@x.com"
    (by decide) (by decide) rfl (by decide)

/-- C5 counterexample: the claim as stated quantifies over every update
whose input includes a secret field, but an update whose provided secret is
the empty string stores the raw empty string, which is not a cost-10 bcrypt
digest of anything. -/
theorem updateUser_empty_password_stored_raw_cex :
    (updateUser ⟨[⟨1, "a@x.com", "A", Stored.digest 10 0 "oldpw"⟩], 2⟩ none none 1 1
        ⟨none, none, some ""⟩).1.users =
      [⟨1, "a@x.com", "A", Stored.plain ""⟩] ∧
    ¬ ∃ t sec, Stored.plain "" = Stored.digest 10 t sec := by
  constructor
  · rfl
  · rintro ⟨t, sec, h⟩
    cases h

/-- C5 (amended): an account update whose input includes a NON-EMPTY secret
field stores a fresh cost-10 hash of that secret, different from the old
digest — freshness of the randomized hash is the Credential Hasher
contract of the spec ("same input yields different digests across calls
(embedded random salt)"), expressed here as the hypothesis that the call's
salt does not occur embedded in the old stored credential; an update whose
input omits the secret field leaves the stored digest unchanged; and in
either case the hashing step alters no other field of the update data
(`email` and `name` are forwarded exactly as provided). -/
theorem updateUser_password_hashing_amended (db : Db) (salt id : Nat)
    (udto : UpdateUsertDto) (u : DbUser)
    (hfind : db.users.find? (fun v => v.id == id) = some u) :
    (∀ pw, udto.password = some pw → pw ≠ "" →
      (buildUpdateData udto salt).email = udto.email ∧
      (buildUpdateData udto salt).name = udto.name ∧
      ∀ db' v, updateUser db none none salt id udto = (db', Except.ok v) →
        ∃ u', db'.users.find? (fun w => w.id == id) = some u' ∧
          u'.password = Stored.digest 10 salt pw ∧
          ((∀ c sec, u.password ≠ Stored.digest c salt sec) →
            u'.password ≠ u.password)) ∧
    (udto.password = none →
      buildUpdateData udto salt =
        { email := udto.email, name := udto.name, password := none } ∧
      ∀ db' v, updateUser db none none salt id udto = (db', Except.ok v) →
        ∃ u', db'.users.find? (fun w => w.id == id) = some u' ∧
          u'.password = u.password) := by
  constructor
  · intro pw hpw hne
    have hdata : (buildUpdateData udto salt).password =
        some (Stored.digest 10 salt pw) := by
      simp [buildUpdateData, hpw, bcryptHash, hne]
    refine ⟨rfl, rfl, ?_⟩
    intro db' v h
    obtain ⟨u', hf', hp'⟩ := updateUser_ok_inv db salt id udto u hfind db' v h
    have hpw' : u'.password = Stored.digest 10 salt pw := by
      rw [hp', hdata, Option.getD_some]
    refine ⟨u', hf', hpw', ?_⟩
    intro hfresh heq
    rw [hpw'] at heq
    exact hfresh 10 pw heq.symm
  · intro hnone
    refine ⟨?_, ?_⟩
    · simp [buildUpdateData, hnone]
    · intro db' v h
      obtain ⟨u', hf', hp'⟩ := updateUser_ok_inv db salt id udto u hfind db' v h
      refine ⟨u', hf', ?_⟩
      rw [hp']
      simp [buildUpdateData, hnone]

/-- Witness for C5 (amended) at a concrete update providing a non-empty
secret, where the call's fresh salt (4) differs from the salt embedded in
the old digest (3): the name field is forwarded untouched, the stored
credential becomes the cost-10 hash of the new secret, and it differs from
the old digest. -/
theorem updateUser_password_hashing_amended_witness :
    (buildUpdateData ⟨none, some "B2", some "newpw"⟩ 4).name = some "B2" ∧
    ∃ u', ((updateUser ⟨[⟨2, "b@x.com", "B", Stored.digest 10 3 "oldpw"⟩], 3⟩ none none 4 2
        ⟨none, some "B2", some "newpw"⟩).1).users.find? (fun w => w.id == 2) = some u' ∧
      u'.password = Stored.digest 10 4 "newpw" ∧
      u'.password ≠ Stored.digest 10 3 "oldpw" := by
  obtain ⟨hemail, hname, hrest⟩ := (updateUser_password_hashing_amended
      ⟨[⟨2, "b@x.com", "B", Stored.digest 10 3 "oldpw"⟩], 3⟩ 4 2
      ⟨none, some "B2", some "newpw"⟩ ⟨2, "b@x.com", "B", Stored.digest 10 3 "oldpw"⟩ rfl).1
      "newpw" rfl (by decide)
  obtain ⟨u', hf', hpw', himp⟩ := hrest
    ⟨[⟨2, "b@x.com", "B2", Stored.digest 10 4 "newpw"⟩], 3⟩ ⟨2, "b@x.com", "B2", none⟩ rfl
  refine ⟨hname, u', hf', hpw', himp ?_⟩
  intro c sec hcontra
  injection hcontra with h1 h2 h3
  exact absurd h2 (by decide)

/-- C6: updating or deleting an account whose id is absent (the persistence
layer's `findUniqueOrThrow` signals `P2025`) fails with `NotFoundException`
whose message includes the requested id, and the store is returned
unchanged (the mutating call is never reached). -/
theorem p2025_maps_to_notFound_with_id_no_mutation
    (db : Db) (salt id : Nat) (udto : UpdateUsertDto)
    (habsent : db.users.find? (fun w => w.id == id) = none) :
    updateUser db none none salt id udto =
      (db, .error (.notFoundException s!"User with id {id} not found")) ∧
    deleteUser db none none id =
      (db, .error (.notFoundException s!"User with id {id} not found")) := by
  constructor
  · simp [updateUser, prismaUserFindUniqueOrThrow, habsent, mapUserMutationError,
      JsError.code]
  · simp [deleteUser, prismaUserFindUniqueOrThrow, habsent, mapUserMutationError,
      JsError.code]

/-- Witness for C6 at an empty store and id 999 (the tests' missing id). -/
theorem p2025_maps_to_notFound_with_id_no_mutation_witness :
    updateUser ⟨[], 1⟩ none none 0 999 ⟨none, some "N", none⟩ =
      (⟨[], 1⟩, .error (.notFoundException "User with id 999 not found")) ∧
    deleteUser ⟨[], 1⟩ none none 999 =
      (⟨[], 1⟩, .error (.notFoundException "User with id 999 not found")) :=
  p2025_maps_to_notFound_with_id_no_mutation ⟨[], 1⟩ 0 999 ⟨none, some "N", none⟩ rfl

/-- C7: creating a post whose owning account reference does not exist (the
persistence layer signals a foreign-key violation, `P2003`) fails with
`NotFoundException('Author not found')`, and the post store is returned
unchanged. -/
theorem createPost_missing_author_maps_to_notFound
    (users : List DbUser) (pdb : PostDb) (dto : CreatePostDto)
    (habsent : (users.any fun u => u.id == dto.authorId) = false) :
    createPost users pdb none dto =
      (pdb, .error (.notFoundException "Author not found")) := by
  simp [createPost, prismaPostCreate, habsent, JsError.code]

/-- Witness for C7 at an empty user store and author id 999. -/
theorem createPost_missing_author_maps_to_notFound_witness :
    createPost [] ⟨[], 1⟩ none ⟨"Test Post", "This is a test post content", true, 999⟩ =
      (⟨[], 1⟩, .error (.notFoundException "Author not found")) :=
  createPost_missing_author_maps_to_notFound [] ⟨[], 1⟩
    ⟨"Test Post", "This is a test post content", true, 999⟩ rfl

/-- C9: a persistence-layer error that is none of the recognized signals
(`P2002`, `P2025`, `P2003`) is wrapped as `HttpException(error, 500)` — the
original error object is the body of the wrapper and the only detail
exposed — in registration, login, account update, account deletion and post
creation, and the store is returned unchanged. -/
theorem unrecognized_errors_wrap_internal_500
    (db : Db) (e : JsError) (salt id : Nat)
    (cdto : CreateUserDto) (ldto : LoginUserDto) (udto : UpdateUsertDto)
    (users : List DbUser) (pdb : PostDb) (pdto : CreatePostDto)
    (sign : UserPayload → SignedToken)
    (h2002 : e.code ≠ some "P2002") (h2025 : e.code ≠ some "P2025")
    (h2003 : e.code ≠ some "P2003") :
    registerUser db (some e) salt cdto = (db, .error (.httpException e 500)) ∧
    loginUser db (some e) ldto sign = .error (.httpException e 500) ∧
    updateUser db (some e) none salt id udto = (db, .error (.httpException e 500)) ∧
    deleteUser db (some e) none id = (db, .error (.httpException e 500)) ∧
    createPost users pdb (some e) pdto = (pdb, .error (.httpException e 500)) := by
  have hb2002 : (e.code == some "P2002") = false := by
    rw [beq_eq_false_iff_ne]
    exact h2002
  have hb2025 : (e.code == some "P2025") = false := by
    rw [beq_eq_false_iff_ne]
    exact h2025
  have hb2003 : (e.code == some "P2003") = false := by
    rw [beq_eq_false_iff_ne]
    exact h2003
  refine ⟨?_, ?_, ?_, ?_, ?_⟩
  · simp [registerUser, hb2002]
  · simp [loginUser]
  · simp [updateUser, mapUserMutationError, hb2002, hb2025]
  · simp [deleteUser, mapUserMutationError, hb2002, hb2025]
  · simp [createPost, hb2002, hb2003]

/-- Witness for C9 with the tests' plain `Error('Database connection
failed')`. -/
theorem unrecognized_errors_wrap_internal_500_witness :
    registerUser ⟨[], 1⟩ (some (.jsErr "Database connection failed")) 0
        ⟨"a@x.com", "A", "pw"⟩ =
      (⟨[], 1⟩, .error (.httpException (.jsErr "Database connection failed") 500)) ∧
    loginUser ⟨[], 1⟩ (some (.jsErr "Database connection failed"))
        ⟨"a@x.com", "pw"⟩ SignedToken.mk =
      .error (.httpException (.jsErr "Database connection failed") 500) ∧
    updateUser ⟨[], 1⟩ (some (.jsErr "Database connection failed")) none 0 1
        ⟨none, some "N", none⟩ =
      (⟨[], 1⟩, .error (.httpException (.jsErr "Database connection failed") 500)) ∧
    deleteUser ⟨[], 1⟩ (some (.jsErr "Database connection failed")) none 1 =
      (⟨[], 1⟩, .error (.httpException (.jsErr "Database connection failed") 500)) ∧
    createPost [] ⟨[], 1⟩ (some (.jsErr "Database connection failed"))
        ⟨"t", "c", true, 1⟩ =
      (⟨[], 1⟩, .error (.httpException (.jsErr "Database connection failed") 500)) :=
  unrecognized_errors_wrap_internal_500 ⟨[], 1⟩ (.jsErr "Database connection failed")
    0 1 ⟨"a@x.com", "A", "pw"⟩ ⟨"a@x.com", "pw"⟩ ⟨none, some "N", none⟩ [] ⟨[], 1⟩
    ⟨"t", "c", true, 1⟩ SignedToken.mk (by decide) (by decide) (by decide)

/-- C10: in an account update whose password field is present but empty
(the sole falsy string), the truthiness guard skips the hashing override,
yet the first spread still forwards the raw empty string in the `data`
written to persistence — so an empty-string credential is persisted
un-hashed. -/
theorem update_truthiness_guard_forwards_raw (udto : UpdateUsertDto) (salt : Nat)
    (h : udto.password = some "") :
    (buildUpdateData udto salt).password = some (Stored.plain "") ∧
    (∀ c t sec, (buildUpdateData udto salt).password ≠ some (Stored.digest c t sec)) ∧
    (∀ db id u db' v, db.users.find? (fun w => w.id == id) = some u →
      updateUser db none none salt id udto = (db', Except.ok v) →
      ∃ u', db'.users.find? (fun w => w.id == id) = some u' ∧
        u'.password = Stored.plain "") := by
  have hdata : (buildUpdateData udto salt).password = some (Stored.plain "") := by
    simp [buildUpdateData, h]
  refine ⟨hdata, ?_, ?_⟩
  · intro c t sec hcontra
    rw [hdata] at hcontra
    simp at hcontra
  · intro db id u db' v hfind hupd
    obtain ⟨u', hf', hp'⟩ := updateUser_ok_inv db salt id udto u hfind db' v hupd
    exact ⟨u', hf', by rw [hp', hdata, Option.getD_some]⟩

/-- Witness for C10 at a concrete update carrying an empty password. -/
theorem update_truthiness_guard_forwards_raw_witness :
    (buildUpdateData ⟨none, none, some ""⟩ 7).password = some (Stored.plain "") :=
  (update_truthiness_guard_forwards_raw ⟨none, none, some ""⟩ 7 rfl).1

/-- A positive parsed query parameter is taken as-is by the defaulting
rule. -/
theorem resolveParam_pos (n d : Nat) (hn : 0 < n) :
    resolveParam (some (n : Int)) d = n := by
  have h : ¬ ((n : Int) ≤ 0) := by exact_mod_cast Nat.not_le.mpr hn
  simp [resolveParam, h]

/-- `(t + s - 1) / s` is the ceiling of `t / s`: it is the least page count
covering all `t` records at `s` per page. -/
theorem ceil_div_char (t s q : Nat) (hs : 0 < s) (ht : 0 < t)
    (hq : (t + s - 1) / s = q) : t ≤ s * q ∧ s * (q - 1) < t := by
  have heq := Nat.div_add_mod (t + s - 1) s
  rw [hq] at heq
  have hmod : (t + s - 1) % s < s := Nat.mod_lt _ hs
  obtain ⟨r, hr⟩ : ∃ r, (t + s - 1) % s = r := ⟨_, rfl⟩
  rw [hr] at heq hmod
  rcases q with _ | q'
  · simp only [Nat.mul_zero, Nat.zero_add] at heq
    simp only [Nat.mul_zero, Nat.zero_sub]
    omega
  · obtain ⟨M, hM⟩ : ∃ M, s * q' = M := ⟨_, rfl⟩
    rw [Nat.mul_succ, hM] at heq
    constructor
    · rw [Nat.mul_succ, hM]
      omega
    · have hstep : q' + 1 - 1 = q' := rfl
      rw [hstep, hM]
      omega

/-- C8: the paginated listing returns `{data, meta}` with `meta.total` the
record count, `meta.currentPage = page`, `meta.totalPerPage = size`,
`meta.lastPage = ceil(total/size)` (0 when `total = 0`; the second conjunct
characterizes `(total+size-1)/size` as that ceiling), `prevPage =
currentPage-1` when `currentPage > 1` else null, `nextPage = currentPage+1`
when `currentPage < lastPage` else null, and the query offset is
`(page-1)*size`. -/
theorem getAllPosts_pagination_meta (pdb : PostDb) (p s : Nat)
    (hp : 0 < p) (hs : 0 < s) :
    getAllPosts pdb (some ⟨some (p : Int), some (s : Int)⟩) =
      { data := (pdb.posts.drop ((p - 1) * s)).take s
        meta :=
          { total := pdb.posts.length
            lastPage := if pdb.posts.length = 0 then 0 else (pdb.posts.length + s - 1) / s
            currentPage := p
            totalPerPage := s
            prevPage := if 1 < p then some (p - 1) else none
            nextPage :=
              if p < (if pdb.posts.length = 0 then 0 else (pdb.posts.length + s - 1) / s)
              then some (p + 1)
              else none } } ∧
    (0 < pdb.posts.length →
      pdb.posts.length ≤ s * ((pdb.posts.length + s - 1) / s) ∧
      s * ((pdb.posts.length + s - 1) / s - 1) < pdb.posts.length) := by
  constructor
  · simp [getAllPosts, Option.bind, resolveParam_pos p 1 hp, resolveParam_pos s 10 hs]
  · intro ht
    exact ceil_div_char _ _ _ hs ht rfl

/-- Witness for C8 at the repository tests' two vectors: page 1, size 10
over two records (`lastPage=1, prevPage=null, nextPage=null`) and over zero
records (`lastPage=0`). -/
theorem getAllPosts_pagination_meta_witness :
    getAllPosts
        ⟨[⟨1, "Post 1", "Content 1", true, 1⟩, ⟨2, "Post 2", "Content 2", false, 2⟩], 3⟩
        (some ⟨some ((1 : Nat) : Int), some ((10 : Nat) : Int)⟩) =
      ⟨[⟨1, "Post 1", "Content 1", true, 1⟩, ⟨2, "Post 2", "Content 2", false, 2⟩],
        ⟨2, 1, 1, 10, none, none⟩⟩ ∧
    getAllPosts ⟨[], 1⟩ (some ⟨some ((1 : Nat) : Int), some ((10 : Nat) : Int)⟩) =
      ⟨[], ⟨0, 0, 1, 10, none, none⟩⟩ := by
  constructor
  · have h := (getAllPosts_pagination_meta
        ⟨[⟨1, "Post 1", "Content 1", true, 1⟩, ⟨2, "Post 2", "Content 2", false, 2⟩], 3⟩
        1 10 (by decide) (by decide)).1
    rw [h]
    rfl
  · have h := (getAllPosts_pagination_meta ⟨[], 1⟩ 1 10 (by decide) (by decide)).1
    rw [h]
    rfl

end NestDemo
